import Mathlib

/-!
Shallow embedding of the rocinante bot sources (`src/bot/bolt_login.py` and
`src/bot/post_launch.py`) and proofs about the claims of the spec.

Modelling conventions:
* Python floats are modelled as rationals (`ℚ`); screen coordinates are
  naturals (template-match locations are row/column indices, hence ≥ 0),
  except where Python integer arithmetic can go negative (`click_random_within`
  offsets, Bézier waypoints), where `ℤ` is used.
* External capabilities (`cv2.matchTemplate`, screenshots via `import`,
  `xdotool`, `oathtool`) are modelled as oracle inputs: the score surface a
  `matchTemplate` call would return, the frame a screenshot would return
  (`Option` — `None` models a failed capture), the coordinates a poll loop
  would find, the code `oathtool` would print.
* Side effects on the UI (mouse clicks, keystrokes, window moves) are
  modelled as an emitted event trace.
-/

namespace Rocinante

/-- `MATCH_THRESHOLD = 0.8` from both source files. -/
def MATCH_THRESHOLD : ℚ := 8/10

/-- `POLL_INTERVAL = 0.5` from both source files. -/
def POLL_INTERVAL : ℚ := 1/2

/-- A template image as far as `find_template` observes it after a successful
`cv2.imread`: its pixel dimensions (`h, w = template.shape[:2]`). -/
structure Template where
  width : ℕ
  height : ℕ
deriving DecidableEq, Repr

/-- The two shapes of a successful `find_template` return value:
`(center_x, center_y)` or `(x, y, width, height)`. The Python `None` return is
`Option.none` around this type. -/
inductive FindHit where
  | center (x y : ℕ)
  | bounds (x y : ℕ) (w h : ℕ)
deriving DecidableEq, Repr

/-- Fold of `cv2.minMaxLoc` restricted to what the code reads (`max_val`,
`max_loc`): keep the entry with the strictly larger score, scanning left to
right. -/
def minMaxLocAux : (ℚ × ℕ × ℕ) → List (ℚ × ℕ × ℕ) → ℚ × ℕ × ℕ
  | best, [] => best
  | best, x :: xs => minMaxLocAux (if best.1 < x.1 then x else best) xs

/-- `cv2.minMaxLoc` on a score surface given as a list of
`(score, x, y)` entries; `none` only on an empty surface (which
`cv2.matchTemplate` never produces when the template fits in the frame). -/
def minMaxLoc : List (ℚ × ℕ × ℕ) → Option (ℚ × ℕ × ℕ)
  | [] => none
  | x :: xs => some (minMaxLocAux x xs)

/-- `find_template(screen, template_name, threshold, return_bounds)` from
`src/bot/bolt_login.py` (lines 75-108) and `src/bot/post_launch.py`
(lines 79-107).

* `store` models the template asset store: `store name = none` models both a
  missing file (`not template_path.exists()`, bolt_login) and an unreadable /
  undecodable image (`cv2.imread` returning `None`, both files) — in all these
  cases both sources log and `return None`.
* `scores` models the external `cv2.matchTemplate(screen_gray, template_gray,
  TM_CCOEFF_NORMED)` call: the score surface of the given frame for the given
  template.

Returns the center point `(max_loc + size // 2)` when accepted and
`return_bounds` is false, the bounding box `(max_loc, w, h)` when accepted and
`return_bounds` is true, and `none` when `max_val < threshold`. -/
def find_template (store : String → Option Template)
    (scores : Template → List (ℚ × ℕ × ℕ))
    (template_name : String) (threshold : ℚ) (return_bounds : Bool) :
    Option FindHit :=
  match store template_name with
  | none => none
  | some template =>
    match minMaxLoc (scores template) with
    | none => none
    | some (max_val, max_loc_x, max_loc_y) =>
      if threshold ≤ max_val then
        if return_bounds then
          some (.bounds max_loc_x max_loc_y template.width template.height)
        else
          some (.center (max_loc_x + template.width / 2)
                        (max_loc_y + template.height / 2))
      else
        none

/-- The body-execution structure of `wait_and_click`'s
`while elapsed < timeout` loop (bolt_login.py lines 193-213, post_launch.py
lines 188-208): `found i` is the outcome of attempt `i` (screenshot plus
`find_template`; `none` models both a failed capture and a template that is not
on screen). On the first attempt `i` with `found i = some c` the loop clicks
`c` and returns `True`; the model returns `some (i, c)` (the attempt index and
the clicked coordinates). `fuel` is the number of remaining iterations;
`none` models the `return False` after the loop. -/
def waitLoop (found : ℕ → Option (ℕ × ℕ)) : ℕ → ℕ → Option (ℕ × ℕ × ℕ)
  | 0, _ => none
  | fuel + 1, i =>
    match found i with
    | some c => some (i, c)
    | none => waitLoop found fuel (i + 1)

/-- Number of iterations of `while elapsed < timeout` with
`elapsed += interval` at the end of each body: iteration `i` (0-based) runs
iff `i * interval < timeout`, so the count is `⌈timeout / interval⌉`. -/
def pollAttempts (timeout interval : ℚ) : ℕ := ⌈timeout / interval⌉₊

/-- `wait_and_click(template_name, timeout)` with the poll cadence
`POLL_INTERVAL` generalized to `interval`: runs `waitLoop` for the number of
iterations the `while` loop performs. -/
def wait_and_click (found : ℕ → Option (ℕ × ℕ)) (timeout interval : ℚ) :
    Option (ℕ × ℕ × ℕ) :=
  waitLoop found (pollAttempts timeout interval) 0

/-- `click_random_within(x, y, width, height)` from bolt_login.py lines
170-177 (textually identical in post_launch.py lines 166-172): the two
`random.randint(a, b)` draws are supplied by the oracle `randint`, which
returns a value in `[a, b]` (both ends inclusive). Returns the clicked point
`(rand_x, rand_y)`. -/
def click_random_within (randint : ℤ → ℤ → ℤ) (x y width height : ℤ) :
    ℤ × ℤ :=
  let m : ℤ := 5
  (x + randint m (max (m + 1) (width - m)),
   y + randint m (max (m + 1) (height - m)))

/-- `bezier_curve(t, p0, p1, p2, p3)` from bolt_login.py lines 127-129. -/
def bezier_curve (t p0 p1 p2 p3 : ℚ) : ℚ :=
  (1 - t)^3 * p0 + 3 * (1 - t)^2 * t * p1 + 3 * (1 - t) * t^2 * p2 + t^3 * p3

/-- Python `int()` applied to a nonnegative-or-negative rational: truncation
toward zero. -/
def pyInt (q : ℚ) : ℤ := if q < 0 then -(⌊-q⌋) else ⌊q⌋

/-- Squared Euclidean distance between start and target, in integer pixels:
`(target_x - start_x)**2 + (target_y - start_y)**2`. -/
def distSq (start_x start_y target_x target_y : ℤ) : ℕ :=
  ((target_x - start_x)^2 + (target_y - start_y)^2).toNat

/-- `steps = max(10, int(distance / 15))` with
`distance = distSq ** 0.5`: for a nonnegative real `d` and the positive
integer `15`, `int(d / 15) = ⌊d / 15⌋ = ⌊⌊d⌋ / 15⌋`, and `⌊sqrt n⌋ = Nat.sqrt n`,
so the step count is computed here on naturals. -/
def moveSteps (start_x start_y target_x target_y : ℤ) : ℕ :=
  max 10 (Nat.sqrt (distSq start_x start_y target_x target_y) / 15)

/-- The Bézier-path waypoints emitted by the `for i in range(steps + 1)` loop
of `human_move_mouse` (bolt_login.py lines 132-159, post_launch.py lines
131-155): one `xdotool mousemove` position per iteration. `r1 r2 r3 r4` are
the four `random.randint` draws in call order (`±50`, `±30`, `±50`, `±30`);
the float literals `0.3, 0.1, 0.7, 0.9` are modelled by the rationals they
denote. Iteration `i` uses `t = smoothstep(i / steps)` and truncates the
Bézier point to integer pixels with `int()`. -/
def human_move_mouse_path (start_x start_y target_x target_y r1 r2 r3 r4 : ℤ) :
    List (ℤ × ℤ) :=
  let cp1_x : ℚ := start_x + (target_x - start_x) * (3/10) + r1
  let cp1_y : ℚ := start_y + (target_y - start_y) * (1/10) + r2
  let cp2_x : ℚ := start_x + (target_x - start_x) * (7/10) + r3
  let cp2_y : ℚ := start_y + (target_y - start_y) * (9/10) + r4
  let steps := moveSteps start_x start_y target_x target_y
  (List.range (steps + 1)).map fun (i : ℕ) =>
    let t0 : ℚ := (i : ℚ) / (steps : ℚ)
    let t : ℚ := t0 * t0 * (3 - 2 * t0)
    (pyInt (bezier_curve t (start_x : ℚ) cp1_x cp2_x (target_x : ℚ)),
     pyInt (bezier_curve t (start_y : ℚ) cp1_y cp2_y (target_y : ℚ)))

/-- All positions emitted by one `human_move_mouse` call: the Bézier-path
waypoints followed by the final corrective
`xdotool mousemove target_x target_y` (exact, no rounding). -/
def human_move_mouse (start_x start_y target_x target_y r1 r2 r3 r4 : ℤ) :
    List (ℤ × ℤ) :=
  human_move_mouse_path start_x start_y target_x target_y r1 r2 r3 r4
    ++ [(target_x, target_y)]

/-- The configuration record as read from JSON, before validation: each of the
four keys accessed by `load_config` may be present (`some`) or absent
(`none`). -/
structure ConfigJson where
  username : Option String
  password : Option String
  totpSecret : Option String
  characterName : Option String
deriving DecidableEq, Repr

/-- `load_config(config_path)` from bolt_login.py lines 248-259, after the
JSON parse: each `_ = config['key']` raises `KeyError` (modelled as
`Except.error`) when the key is absent, in source order
(`username`, `password`, `totpSecret`, `characterName`); otherwise the config
is returned unchanged. -/
def load_config (c : ConfigJson) : Except String ConfigJson :=
  match c.username with
  | none => Except.error "KeyError: username"
  | some _ =>
  match c.password with
  | none => Except.error "KeyError: password"
  | some _ =>
  match c.totpSecret with
  | none => Except.error "KeyError: totpSecret"
  | some _ =>
  match c.characterName with
  | none => Except.error "KeyError: characterName"
  | some _ => Except.ok c

/-- A successfully loaded configuration, as `main` reads it from the global
`CONFIG` dict: all four values present as strings (possibly empty). -/
structure Config where
  username : String
  password : String
  totpSecret : String
  characterName : String
deriving DecidableEq, Repr

/-- One UI side effect emitted by a flow run (an `xdotool` / `oathtool`
invocation). -/
inductive Event where
  | clickAt (x y : ℕ)
  | clickRandomWithin (x y w h : ℕ)
  | typeText (s : String)
  | pressKey (k : String)
  | totpGen (secret : String)
  | windowMove (wid : String) (x y : ℕ)
  | windowSize (wid : String) (w h : ℕ)
deriving DecidableEq, Repr

/-- The external world as observed by one run of `bolt_login.main`: one field
per probe point, in program order. `Option ℕ` fields are the screenshots the
run takes (`none` = capture failed, the frame otherwise an opaque frame id);
`detect f name thr` is the center-mode `find_template` result on frame `f`;
`detectBounds` the bounds-mode result; `wc*` fields are the outcomes of the
`wait_and_click` poll loops (the found coordinates, or `none` on timeout);
`totpCode` is the `oathtool` output (`none` = `CalledProcessError`);
`runeliteWindow` the id of the RuneLite window once it appears (`none` =
300 s timeout). -/
structure Env where
  runeliteRunning : Bool
  boltWindow : Bool
  step1Screen : Option ℕ
  detect : ℕ → String → ℚ → Option (ℕ × ℕ)
  detectBounds : ℕ → String → ℚ → Option (ℕ × ℕ × ℕ × ℕ)
  wcDisclaimer : Option (ℕ × ℕ)
  wcLoginButton : Option (ℕ × ℕ)
  cloudflareScreen : Option ℕ
  bannerScreen : Option ℕ
  wcAuthApp : Option (ℕ × ℕ)
  totpCode : Option String
  selectAccountScreen : Option ℕ
  wcUserSelectLabel : Option (ℕ × ℕ)
  userHeaderScreen : Option ℕ
  charLabelScreen : Option ℕ
  charHeaderScreen : Option ℕ
  wcPlayButton : Option (ℕ × ℕ)
  runeliteWindow : Option String

/-- `need_login = screen is not None and find_template(screen,
"i_understand_button.png") is not None` (bolt_login.py line 305). -/
def needLogin (env : Env) : Bool :=
  match env.step1Screen with
  | none => false
  | some f => (env.detect f "i_understand_button.png" MATCH_THRESHOLD).isSome

/-- `screen is not None and find_template(screen,
"error_login_cant_open_page.png") is not None` (bolt_login.py line 369). -/
def bannerDetected (env : Env) : Bool :=
  match env.bannerScreen with
  | none => false
  | some f =>
    (env.detect f "error_login_cant_open_page.png" MATCH_THRESHOLD).isSome

/-- The events of one `wait_and_click` call at a `main` call site, given the
poll outcome the environment provides: a click on the found coordinates on
success, nothing on timeout (both flows log and continue). -/
def wcEvents : Option (ℕ × ℕ) → List Event
  | some c => [Event.clickAt c.1 c.2]
  | none => []

/-- The recurring `screen = take_screenshot(); coords = find_template(screen,
name); click_at(coords[0], coords[1] + dy)` idiom (bolt_login steps 4/7/7a
persisted and shared, post_launch Phase 1): nothing when the capture failed or
the template is not found, one click (with vertical offset `dy`, 0 where the
source clicks the coordinates directly) otherwise. -/
def screenClick (screen : Option ℕ) (detect : ℕ → String → ℚ → Option (ℕ × ℕ))
    (template_name : String) (dy : ℕ) : List Event :=
  match screen with
  | none => []
  | some f =>
    match detect f template_name MATCH_THRESHOLD with
    | some c => [Event.clickAt c.1 (c.2 + dy)]
    | none => []

/-- Step 3 of the full-login branch (bolt_login.py lines 327-344): probe for
the Cloudflare checkbox in bounds mode at threshold `MATCH_THRESHOLD * 0.75`
and click a random point within the bounds if present. -/
def cloudflareCheck (screen : Option ℕ)
    (detectBounds : ℕ → String → ℚ → Option (ℕ × ℕ × ℕ × ℕ)) : List Event :=
  match screen with
  | none => []
  | some f =>
    match detectBounds f "cloudflare_human_checkbox.png"
        (MATCH_THRESHOLD * (3/4)) with
    | some b => [Event.clickRandomWithin b.1 b.2.1 b.2.2.1 b.2.2.2]
    | none => []

/-- Steps 7, 7a, 8 and the RuneLite wait/reposition of `bolt_login.main`
(lines 496-580), the shared tail after the full-login / persisted-session
branches rejoin. `acc` is the event trace accumulated by the branch. Returns
`(exit code, full trace)`: `0` with a window move+resize when RuneLite
appears, `1` when it never does. -/
def charSelectAndPlay (env : Env) (acc : List Event) : Int × List Event :=
  let t7 := screenClick env.charLabelScreen env.detect
    "character_select_label.png" 30
  let t7a := screenClick env.charHeaderScreen env.detect
    "character_select_header.png" 30
  let t8 := wcEvents env.wcPlayButton
  let acc2 := acc ++ t7 ++ t7a ++ t8
  match env.runeliteWindow with
  | some wid =>
    (0, acc2 ++ [Event.windowMove wid 0 0, Event.windowSize wid 1920 1080])
  | none => (1, acc2)

/-- Steps 1-4 of the full-login branch, up to and including the email
submission (bolt_login.py lines 307-364): dismiss the disclaimer (poll),
click the login button (poll), the Cloudflare probe, then type the account
identifier and press Return. -/
def preBannerTrace (cfg : Config) (env : Env) : List Event :=
  wcEvents env.wcDisclaimer ++ wcEvents env.wcLoginButton ++
    cloudflareCheck env.cloudflareScreen env.detectBounds ++
    [Event.typeText cfg.username, Event.pressKey "Return"]

/-- Steps 2-5 of the persisted-session branch (bolt_login.py lines 430-494):
click the select-account button (coordinates remembered), click the
user-select dropdown (poll), click 20 px below the user-select header, click
the remembered select-account coordinates again. Every sub-step is
best-effort: a failed probe only skips that click. -/
def persistedTrace (env : Env) : List Event :=
  let selCoords := match env.selectAccountScreen with
    | none => none
    | some f => env.detect f "select_account_button.png" MATCH_THRESHOLD
  wcEvents selCoords ++ wcEvents env.wcUserSelectLabel ++
    screenClick env.userHeaderScreen env.detect "user_select_header.png" 20 ++
    wcEvents selCoords

/-- `main()` of src/bot/bolt_login.py (lines 262-580) after the config has
loaded, over the external-world oracle `env`. Returns
`(exit code, emitted UI events)`. Mirrors the source control flow: early
return 0 if RuneLite already runs; return 1 if the Bolt window never appears;
the single disclaimer probe forks full-login vs persisted-session; the
full-login branch aborts with 1 on the post-email error banner and on
`oathtool` failure; both branches rejoin in `charSelectAndPlay`. -/
def mainRun (cfg : Config) (env : Env) : Int × List Event :=
  if env.runeliteRunning then (0, [])
  else if env.boltWindow = false then (1, [])
  else if needLogin env then
    if bannerDetected env then (1, preBannerTrace cfg env)
    else
      let pre2 := preBannerTrace cfg env ++
        [Event.typeText cfg.password, Event.pressKey "Return"]
      if cfg.totpSecret = "" then
        charSelectAndPlay env pre2
      else
        let t6 := pre2 ++ wcEvents env.wcAuthApp ++
          [Event.totpGen cfg.totpSecret]
        match env.totpCode with
        | none => (1, t6)
        | some code =>
          charSelectAndPlay env
            (t6 ++ [Event.typeText code, Event.pressKey "Return"])
  else
    charSelectAndPlay env (persistedTrace env)

/-- Two environments that agree on everything `bolt_login.main` observes up to
and including the post-credential error-banner check: the RuneLite check, the
Bolt window wait, the step-1 disclaimer probe, the disclaimer and login-button
poll loops, the Cloudflare probe, the `find_template` capabilities, and the
banner probe itself. The fields observed only after the banner check
(`wcAuthApp`, `totpCode`, the persisted-session probes, the character-select
probes, `wcPlayButton`, `runeliteWindow`) are unconstrained. -/
def Env.agreeToBanner (e e' : Env) : Prop :=
  e.runeliteRunning = e'.runeliteRunning ∧
  e.boltWindow = e'.boltWindow ∧
  e.step1Screen = e'.step1Screen ∧
  e.detect = e'.detect ∧
  e.detectBounds = e'.detectBounds ∧
  e.wcDisclaimer = e'.wcDisclaimer ∧
  e.wcLoginButton = e'.wcLoginButton ∧
  e.cloudflareScreen = e'.cloudflareScreen ∧
  e.bannerScreen = e'.bannerScreen

/-- The external world as observed by one run of `post_launch.main`:
screenshots (opaque frame ids, `none` = capture failed), the
`find_template` capability, and the two `wait_and_click` poll outcomes.
`lobbyScreen i` is the screenshot of Phase 2.5 attempt `i`. -/
structure PLEnv where
  detect : ℕ → String → ℚ → Option (ℕ × ℕ)
  licenseScreen : Option ℕ
  wcPlayButton : Option (ℕ × ℕ)
  lobbyScreen : ℕ → Option ℕ
  nameScreen : Option ℕ
  wcNameConfirm : Option (ℕ × ℕ)

/-- The `for attempt in range(6)` lobby retry loop of `post_launch.main`
(lines 270-281): each attempt takes a screenshot and looks for
`lobby_click_to_play.png` at threshold 0.7; on the first hit it clicks and
breaks, otherwise the `for`-`else` just logs. `fuel` is the number of
remaining attempts, `i` the current attempt index. -/
def lobbyLoop (env : PLEnv) : ℕ → ℕ → List Event
  | 0, _ => []
  | fuel + 1, i =>
    match env.lobbyScreen i with
    | none => lobbyLoop env fuel (i + 1)
    | some f =>
      match env.detect f "lobby_click_to_play.png" (7/10) with
      | some c => [Event.clickAt c.1 c.2]
      | none => lobbyLoop env fuel (i + 1)

/-- `main()` of src/bot/post_launch.py (lines 219-318) over the
external-world oracle `env`; `character_name` is
`os.environ.get('CHARACTER_NAME', '')`. Phase 1: single license-accept
attempt; Phase 2: `wait_and_click` on the play button (threshold 0.6, outcome
`env.wcPlayButton`); Phase 2.5: the 6-attempt lobby loop; Phase 3: name entry
only when `character_name` is truthy (non-empty), with confirm-button
fallback to the Return key. Every path falls through to `return 0`. -/
def postLaunchMain (character_name : String) (env : PLEnv) :
    Int × List Event :=
  let t1 := screenClick env.licenseScreen env.detect
    "license_accept_button.png" 0
  let t2 := wcEvents env.wcPlayButton
  let t25 := lobbyLoop env 6 0
  let t3 :=
    if character_name = "" then []
    else
      match env.nameScreen with
      | none => []
      | some f =>
        match env.detect f "name_entry_field.png" MATCH_THRESHOLD with
        | none => []
        | some c =>
          [Event.clickAt c.1 c.2, Event.typeText character_name] ++
          (match env.wcNameConfirm with
           | some c2 => [Event.clickAt c2.1 c2.2]
           | none => [Event.pressKey "Return"])
  (0, t1 ++ t2 ++ t25 ++ t3)

/-- A concrete loaded configuration, for witnesses. -/
def sampleConfig : Config := ⟨"user", "pw", "totp", "char"⟩

/-- A concrete environment in which every probe comes up empty: RuneLite not
running, the Bolt window present, the step-1 capture failed, and every
detection and poll loop finds nothing. -/
def quietEnv : Env where
  runeliteRunning := false
  boltWindow := true
  step1Screen := none
  detect := fun _ _ _ => none
  detectBounds := fun _ _ _ => none
  wcDisclaimer := none
  wcLoginButton := none
  cloudflareScreen := none
  bannerScreen := none
  wcAuthApp := none
  totpCode := none
  selectAccountScreen := none
  wcUserSelectLabel := none
  userHeaderScreen := none
  charLabelScreen := none
  charHeaderScreen := none
  wcPlayButton := none
  runeliteWindow := none

/-- A concrete environment in which the disclaimer is detected at the step-1
probe and the post-email error banner is detected. -/
def bannerEnv : Env :=
  { quietEnv with
    step1Screen := some 0
    bannerScreen := some 0
    detect := fun _ n _ =>
      if n = "i_understand_button.png" then some (1, 2)
      else if n = "error_login_cant_open_page.png" then some (5, 6)
      else none }

lemma minMaxLocAux_eq_or_mem (best : ℚ × ℕ × ℕ) (l : List (ℚ × ℕ × ℕ)) :
    minMaxLocAux best l = best ∨ minMaxLocAux best l ∈ l := by
  induction l generalizing best with
  | nil => exact Or.inl rfl
  | cons x xs ih =>
    rcases ih (if best.1 < x.1 then x else best) with h | h
    · rw [minMaxLocAux, h]
      split
      · exact Or.inr (List.mem_cons_self x xs)
      · exact Or.inl rfl
    · exact Or.inr (List.mem_cons_of_mem x (by rwa [minMaxLocAux]))

lemma le_minMaxLocAux_best (best : ℚ × ℕ × ℕ) (l : List (ℚ × ℕ × ℕ)) :
    best.1 ≤ (minMaxLocAux best l).1 := by
  induction l generalizing best with
  | nil => exact le_refl _
  | cons x xs ih =>
    rw [minMaxLocAux]
    refine le_trans ?_ (ih _)
    split
    · exact le_of_lt (by assumption)
    · exact le_refl _

lemma le_minMaxLocAux_of_mem (best : ℚ × ℕ × ℕ) (l : List (ℚ × ℕ × ℕ)) :
    ∀ s ∈ l, s.1 ≤ (minMaxLocAux best l).1 := by
  induction l generalizing best with
  | nil => intro s hs; exact absurd hs (List.not_mem_nil s)
  | cons x xs ih =>
    intro s hs
    rcases List.mem_cons.mp hs with rfl | hs
    · rw [minMaxLocAux]
      refine le_trans ?_ (le_minMaxLocAux_best _ _)
      split
      · exact le_refl _
      · exact le_of_not_lt (by assumption)
    · exact (by rw [minMaxLocAux]; exact ih _ s hs)

lemma wcEvents_mem {o : Option (ℕ × ℕ)} {e : Event} (he : e ∈ wcEvents o) :
    ∃ x y, e = Event.clickAt x y := by
  cases o with
  | none => simp [wcEvents] at he
  | some c =>
    simp [wcEvents] at he
    exact ⟨c.1, c.2, he⟩

lemma screenClick_mem {s : Option ℕ}
    {det : ℕ → String → ℚ → Option (ℕ × ℕ)} {n : String} {dy : ℕ} {e : Event}
    (he : e ∈ screenClick s det n dy) : ∃ x y, e = Event.clickAt x y := by
  unfold screenClick at he
  rcases s with _ | f
  · simp at he
  · rcases hd : det f n MATCH_THRESHOLD with _ | c
    · simp [hd] at he
    · simp [hd] at he
      exact ⟨c.1, c.2 + dy, he⟩

lemma cloudflareCheck_mem {s : Option ℕ}
    {detB : ℕ → String → ℚ → Option (ℕ × ℕ × ℕ × ℕ)} {e : Event}
    (he : e ∈ cloudflareCheck s detB) :
    ∃ x y w h, e = Event.clickRandomWithin x y w h := by
  unfold cloudflareCheck at he
  rcases s with _ | f
  · simp at he
  · rcases hd : detB f "cloudflare_human_checkbox.png"
        (MATCH_THRESHOLD * (3/4)) with _ | b
    · simp [hd] at he
    · simp [hd] at he
      exact ⟨b.1, b.2.1, b.2.2.1, b.2.2.2, he⟩

lemma persistedTrace_mem {env : Env} {e : Event}
    (he : e ∈ persistedTrace env) : ∃ x y, e = Event.clickAt x y := by
  simp only [persistedTrace, List.mem_append] at he
  rcases he with ((he | he) | he) | he
  exacts [wcEvents_mem he, wcEvents_mem he, screenClick_mem he,
    wcEvents_mem he]

lemma preBannerTrace_mem {cfg : Config} {env : Env} {e : Event}
    (he : e ∈ preBannerTrace cfg env) :
    (∃ x y, e = Event.clickAt x y) ∨
    (∃ x y w h, e = Event.clickRandomWithin x y w h) ∨
    e = Event.typeText cfg.username ∨ e = Event.pressKey "Return" := by
  simp only [preBannerTrace, List.mem_append, List.mem_cons,
    List.mem_singleton] at he
  rcases he with ((he | he) | he) | he | he
  · exact Or.inl (wcEvents_mem he)
  · exact Or.inl (wcEvents_mem he)
  · exact Or.inr (Or.inl (cloudflareCheck_mem he))
  · exact Or.inr (Or.inr (Or.inl he))
  · simp at he
    exact Or.inr (Or.inr (Or.inr he))

lemma charSelectAndPlay_mem {env : Env} {acc : List Event} {e : Event}
    (he : e ∈ (charSelectAndPlay env acc).2) :
    e ∈ acc ∨ (∃ x y, e = Event.clickAt x y) ∨
    (∃ w x y, e = Event.windowMove w x y) ∨
    (∃ w a b, e = Event.windowSize w a b) := by
  rcases hw : env.runeliteWindow with _ | wid
  · simp only [charSelectAndPlay, hw, List.mem_append] at he
    rcases he with ((he | he) | he) | he
    · exact Or.inl he
    · exact Or.inr (Or.inl (screenClick_mem he))
    · exact Or.inr (Or.inl (screenClick_mem he))
    · exact Or.inr (Or.inl (wcEvents_mem he))
  · simp only [charSelectAndPlay, hw, List.mem_append, List.mem_cons,
      List.mem_singleton] at he
    rcases he with (((he | he) | he) | he) | he | he
    · exact Or.inl he
    · exact Or.inr (Or.inl (screenClick_mem he))
    · exact Or.inr (Or.inl (screenClick_mem he))
    · exact Or.inr (Or.inl (wcEvents_mem he))
    · exact Or.inr (Or.inr (Or.inl ⟨wid, 0, 0, he⟩))
    · simp at he
      exact Or.inr (Or.inr (Or.inr ⟨wid, 1920, 1080, he⟩))

/-- C3: for every frame (its score surface) and decodable template,
`find_template` accepts iff the global maximum normalized cross-correlation
score is ≥ the threshold; accepted center mode returns
`max_loc + size // 2` componentwise, accepted bounds mode returns the match's
top-left corner with the template's width and height, and a below-threshold
maximum returns the not-found value `none`. At most one match is ever
reported: the return type carries at most one hit, at the location of the
best score. -/
theorem find_template_match_semantics
    (store : String → Option Template) (scores : Template → List (ℚ × ℕ × ℕ))
    (template_name : String) (threshold : ℚ) (tmpl : Template)
    (hstore : store template_name = some tmpl)
    (hne : scores tmpl ≠ []) :
    ∃ max_val max_x max_y,
      minMaxLoc (scores tmpl) = some (max_val, max_x, max_y) ∧
      (max_val, max_x, max_y) ∈ scores tmpl ∧
      (∀ s ∈ scores tmpl, s.1 ≤ max_val) ∧
      (threshold ≤ max_val →
        find_template store scores template_name threshold false =
          some (FindHit.center (max_x + tmpl.width / 2)
                               (max_y + tmpl.height / 2)) ∧
        find_template store scores template_name threshold true =
          some (FindHit.bounds max_x max_y tmpl.width tmpl.height)) ∧
      (max_val < threshold →
        find_template store scores template_name threshold false = none ∧
        find_template store scores template_name threshold true = none) := by
  rcases hl : scores tmpl with _ | ⟨x, xs⟩
  · exact absurd hl hne
  rcases hmm : minMaxLocAux x xs with ⟨v, mx, my⟩
  have hfind : ∀ rb, find_template store scores template_name threshold rb =
      if threshold ≤ v then
        (if rb then some (FindHit.bounds mx my tmpl.width tmpl.height)
         else some (FindHit.center (mx + tmpl.width / 2)
                                   (my + tmpl.height / 2)))
      else none := by
    intro rb
    simp only [find_template, hstore, hl, minMaxLoc, hmm]
  refine ⟨v, mx, my, ?_, ?_, ?_, ?_, ?_⟩
  · simp [minMaxLoc, hmm]
  · rcases minMaxLocAux_eq_or_mem x xs with h | h
    · rw [hmm] at h; rw [h]; exact List.mem_cons_self x xs
    · rw [hmm] at h; exact List.mem_cons_of_mem x h
  · intro s hs
    rcases List.mem_cons.mp hs with rfl | hs
    · have := le_minMaxLocAux_best s xs
      rw [hmm] at this
      exact this
    · have := le_minMaxLocAux_of_mem x xs s hs
      rw [hmm] at this
      exact this
  · intro hth
    constructor
    · simp [hfind, hth]
    · simp [hfind, hth]
  · intro hlt
    constructor
    · rw [hfind false, if_neg (not_le.mpr hlt)]
    · rw [hfind true, if_neg (not_le.mpr hlt)]

/-- Witness for C3: a concrete store with a 10×4 template, a two-entry score
surface with global maximum 0.9 at (3, 4), and threshold 0.8. -/
theorem find_template_match_semantics_witness :
    ∃ max_val max_x max_y,
      minMaxLoc ((fun _ => [((1:ℚ)/2, 1, 2), (9/10, 3, 4)])
          (⟨10, 4⟩ : Template)) = some (max_val, max_x, max_y) ∧
      (max_val, max_x, max_y) ∈
        (fun _ => [((1:ℚ)/2, 1, 2), (9/10, 3, 4)]) (⟨10, 4⟩ : Template) ∧
      (∀ s ∈ (fun _ => [((1:ℚ)/2, 1, 2), (9/10, 3, 4)])
          (⟨10, 4⟩ : Template), s.1 ≤ max_val) ∧
      ((4:ℚ)/5 ≤ max_val →
        find_template
          (fun n => if n = "play_button.png" then some ⟨10, 4⟩ else none)
          (fun _ => [((1:ℚ)/2, 1, 2), (9/10, 3, 4)])
          "play_button.png" (4/5) false =
          some (FindHit.center (max_x + (⟨10, 4⟩ : Template).width / 2)
                               (max_y + (⟨10, 4⟩ : Template).height / 2)) ∧
        find_template
          (fun n => if n = "play_button.png" then some ⟨10, 4⟩ else none)
          (fun _ => [((1:ℚ)/2, 1, 2), (9/10, 3, 4)])
          "play_button.png" (4/5) true =
          some (FindHit.bounds max_x max_y (⟨10, 4⟩ : Template).width
                               (⟨10, 4⟩ : Template).height)) ∧
      (max_val < (4:ℚ)/5 →
        find_template
          (fun n => if n = "play_button.png" then some ⟨10, 4⟩ else none)
          (fun _ => [((1:ℚ)/2, 1, 2), (9/10, 3, 4)])
          "play_button.png" (4/5) false = none ∧
        find_template
          (fun n => if n = "play_button.png" then some ⟨10, 4⟩ else none)
          (fun _ => [((1:ℚ)/2, 1, 2), (9/10, 3, 4)])
          "play_button.png" (4/5) true = none) :=
  find_template_match_semantics
    (fun n => if n = "play_button.png" then some ⟨10, 4⟩ else none)
    (fun _ => [((1:ℚ)/2, 1, 2), (9/10, 3, 4)])
    "play_button.png" (4/5) ⟨10, 4⟩ rfl (List.cons_ne_nil _ _)

/-- C1 counterexample: the claim says the value returned on a missing or
unreadable asset differs from the value returned when the template is simply
not visible. In the code both are `None`: a store with no asset for the name
and a store whose asset scores 0.5 < 0.8 on the frame produce the same return
value. -/
theorem find_template_missing_asset_eq_not_found :
    find_template (fun _ => none) (fun _ => [((1:ℚ), 0, 0)])
      "i_understand_button.png" MATCH_THRESHOLD false = none ∧
    find_template
      (fun n => if n = "i_understand_button.png" then some ⟨8, 6⟩ else none)
      (fun _ => [((1:ℚ)/2, 0, 0)])
      "i_understand_button.png" MATCH_THRESHOLD false = none := by
  constructor
  · rfl
  · norm_num [find_template, minMaxLoc, minMaxLocAux, MATCH_THRESHOLD]

/-- C1 amended: a missing or undecodable template asset makes `find_template`
log and return `None` — the same value it returns when the asset loads but the
global maximum score is below the threshold. The two outcomes are
distinguishable only in the log output, not in the value returned to the
caller. -/
theorem find_template_asset_error_amended
    (store store' : String → Option Template)
    (scores scores' : Template → List (ℚ × ℕ × ℕ))
    (name name' : String) (threshold threshold' : ℚ) (rb rb' : Bool)
    (tmpl : Template) (v : ℚ) (mx my : ℕ)
    (hmissing : store name = none)
    (hstore' : store' name' = some tmpl)
    (hmax : minMaxLoc (scores' tmpl) = some (v, mx, my))
    (hbelow : v < threshold') :
    find_template store scores name threshold rb = none ∧
    find_template store scores name threshold rb =
      find_template store' scores' name' threshold' rb' := by
  have h1 : find_template store scores name threshold rb = none := by
    simp only [find_template, hmissing]
  have h2 : find_template store' scores' name' threshold' rb' = none := by
    simp only [find_template, hstore', hmax]
    rw [if_neg (not_le.mpr hbelow)]
  exact ⟨h1, h1.trans h2.symm⟩

/-- Witness for the amended C1, at a concrete missing-asset store and a
concrete below-threshold score surface. -/
theorem find_template_asset_error_amended_witness :
    find_template (fun _ => none) (fun _ => [((1:ℚ), 0, 0)]) "a.png" (8/10)
      false = none ∧
    find_template (fun _ => none) (fun _ => [((1:ℚ), 0, 0)]) "a.png" (8/10)
      false =
    find_template (fun _ => some ⟨3, 3⟩) (fun _ => [((1:ℚ)/2, 4, 5)]) "b.png"
      (8/10) true :=
  find_template_asset_error_amended
    (fun _ => none) (fun _ => some ⟨3, 3⟩)
    (fun _ => [((1:ℚ), 0, 0)]) (fun _ => [((1:ℚ)/2, 4, 5)])
    "a.png" "b.png" (8/10) (8/10) false true
    ⟨3, 3⟩ (1/2) 4 5 rfl rfl rfl (by norm_num)

/-- C2 counterexample: a configuration with the account identifier and the
credential secret but without the `totpSecret` key is rejected by
`load_config` with a `KeyError`, contradicting the claim that it is
accepted. -/
theorem load_config_missing_totp_counterexample :
    load_config ⟨some "user", some "pw", none, some "name"⟩ =
      Except.error "KeyError: totpSecret" := rfl

/-- C5: whenever the disclaimer anchor is not detected at the initial
session-state probe (`need_login` is false), the login flow takes the
persisted-session branch and never types any text, never generates a
second-factor code, and never presses any key: the whole run emits only
clicks and window-management events. -/
theorem mainRun_persisted_no_credential_steps (cfg : Config) (env : Env)
    (h : needLogin env = false) :
    (∀ s, Event.typeText s ∉ (mainRun cfg env).2) ∧
    (∀ s, Event.totpGen s ∉ (mainRun cfg env).2) ∧
    (∀ k, Event.pressKey k ∉ (mainRun cfg env).2) := by
  have key : ∀ e ∈ (mainRun cfg env).2,
      (∃ x y, e = Event.clickAt x y) ∨
      (∃ w x y, e = Event.windowMove w x y) ∨
      (∃ w a b, e = Event.windowSize w a b) := by
    intro e he
    rcases hrr : env.runeliteRunning with _ | _
    · rcases hbw : env.boltWindow with _ | _
      · simp [mainRun, hrr, hbw] at he
      · simp only [mainRun, hrr, hbw, h] at he
        simp at he
        rcases charSelectAndPlay_mem he with hacc | hsh
        · exact Or.inl (persistedTrace_mem hacc)
        · exact hsh
    · simp [mainRun, hrr] at he
  refine ⟨?_, ?_, ?_⟩ <;> intro s hs <;>
    rcases key _ hs with ⟨x, y, h'⟩ | ⟨w, x, y, h'⟩ | ⟨w, a, b, h'⟩ <;>
    exact Event.noConfusion h'

/-- Witness for C5: the all-quiet environment, in which the step-1 capture
fails, has `needLogin = false`. -/
theorem mainRun_persisted_no_credential_steps_witness :
    (∀ s, Event.typeText s ∉ (mainRun sampleConfig quietEnv).2) ∧
    (∀ s, Event.totpGen s ∉ (mainRun sampleConfig quietEnv).2) ∧
    (∀ k, Event.pressKey k ∉ (mainRun sampleConfig quietEnv).2) :=
  mainRun_persisted_no_credential_steps sampleConfig quietEnv rfl

/-- C2 amended: `load_config` succeeds iff all four keys — `username`,
`password`, `totpSecret` and `characterName` — are present (the code treats
all four as required, not just the account identifier and credential secret);
separately, a `totpSecret` that is present but empty short-circuits the 2FA
sub-step without being an error: no one-time code is ever generated. -/
theorem load_config_requires_all_four_fields :
    (∀ c : ConfigJson, load_config c = Except.ok c ↔
      (c.username.isSome = true ∧ c.password.isSome = true ∧
       c.totpSecret.isSome = true ∧ c.characterName.isSome = true)) ∧
    (∀ (cfg : Config) (env : Env), cfg.totpSecret = "" →
      ∀ s, Event.totpGen s ∉ (mainRun cfg env).2) := by
  constructor
  · intro c
    rcases c with ⟨u, p, t, n⟩
    cases u <;> cases p <;> cases t <;> cases n <;> simp [load_config]
  · intro cfg env h0 s hs
    rcases hrr : env.runeliteRunning with _ | _
    · rcases hbw : env.boltWindow with _ | _
      · simp [mainRun, hrr, hbw] at hs
      · rcases hnl : needLogin env with _ | _
        · simp only [mainRun, hrr, hbw, hnl] at hs
          simp at hs
          rcases charSelectAndPlay_mem hs with hacc | hsh
          · rcases persistedTrace_mem hacc with ⟨x, y, h'⟩
            exact Event.noConfusion h'
          · rcases hsh with ⟨x, y, h'⟩ | ⟨w, x, y, h'⟩ | ⟨w, a, b, h'⟩ <;>
              exact Event.noConfusion h'
        · rcases hban : bannerDetected env with _ | _
          · simp only [mainRun, hrr, hbw, hnl, hban, h0] at hs
            simp at hs
            rcases charSelectAndPlay_mem hs with hacc | hsh
            · simp only [List.mem_append, List.mem_cons,
                List.mem_singleton] at hacc
              rcases hacc with hacc | h' | h'
              · rcases preBannerTrace_mem hacc with
                  ⟨x, y, h'⟩ | ⟨x, y, w, hh, h'⟩ | h' | h' <;>
                  exact Event.noConfusion h'
              · exact Event.noConfusion h'
              · simp at h'
            · rcases hsh with ⟨x, y, h'⟩ | ⟨w, x, y, h'⟩ | ⟨w, a, b, h'⟩ <;>
                exact Event.noConfusion h'
          · simp only [mainRun, hrr, hbw, hnl, hban] at hs
            simp at hs
            rcases preBannerTrace_mem hs with
              ⟨x, y, h'⟩ | ⟨x, y, w, hh, h'⟩ | h' | h' <;>
              exact Event.noConfusion h'
    · simp [mainRun, hrr] at hs

/-- Witness for the amended C2: the all-present configuration record loads
successfully, and with an empty `totpSecret` string the quiet run generates
no one-time code. -/
theorem load_config_requires_all_four_fields_witness :
    (load_config ⟨some "user", some "pw", some "totp", some "char"⟩ =
        Except.ok ⟨some "user", some "pw", some "totp", some "char"⟩ ↔
      ((some "user" : Option String).isSome = true ∧
       (some "pw" : Option String).isSome = true ∧
       (some "totp" : Option String).isSome = true ∧
       (some "char" : Option String).isSome = true)) ∧
    (∀ s, Event.totpGen s ∉
      (mainRun ⟨"user", "pw", "", "char"⟩ quietEnv).2) :=
  ⟨load_config_requires_all_four_fields.1 _,
   load_config_requires_all_four_fields.2 ⟨"user", "pw", "", "char"⟩
     quietEnv rfl⟩

/-- C6: in the full-login path, a detected post-credential-submission error
banner makes the run return exit code 1 with exactly the pre-banner trace:
the account identifier was typed, but no second-factor code is generated, the
credential secret is never typed (when it differs from the identifier), and
the run's outcome does not depend on any probe that comes after the banner
check — no further step of the flow is attempted. -/
theorem mainRun_banner_abort (cfg : Config) (env : Env)
    (hr : env.runeliteRunning = false) (hb : env.boltWindow = true)
    (hn : needLogin env = true) (hban : bannerDetected env = true) :
    mainRun cfg env = (1, preBannerTrace cfg env) ∧
    Event.typeText cfg.username ∈ (mainRun cfg env).2 ∧
    (∀ s, Event.totpGen s ∉ (mainRun cfg env).2) ∧
    (cfg.password ≠ cfg.username →
      Event.typeText cfg.password ∉ (mainRun cfg env).2) ∧
    (∀ env', Env.agreeToBanner env env' →
      mainRun cfg env' = mainRun cfg env) := by
  have hm : mainRun cfg env = (1, preBannerTrace cfg env) := by
    simp [mainRun, hr, hb, hn, hban]
  refine ⟨hm, ?_, ?_, ?_, ?_⟩
  · rw [hm]
    simp [preBannerTrace]
  · intro s hs
    rw [hm] at hs
    rcases preBannerTrace_mem hs with
      ⟨x, y, h'⟩ | ⟨x, y, w, hh, h'⟩ | h' | h' <;>
      exact Event.noConfusion h'
  · intro hne hs
    rw [hm] at hs
    rcases preBannerTrace_mem hs with
      ⟨x, y, h'⟩ | ⟨x, y, w, hh, h'⟩ | h' | h'
    · exact Event.noConfusion h'
    · exact Event.noConfusion h'
    · exact hne (by injection h')
    · exact Event.noConfusion h'
  · intro env' hagree
    obtain ⟨h1, h2, h3, h4, h5, h6, h7, h8, h9⟩ := hagree
    have hr' : env'.runeliteRunning = false := by rw [← h1]; exact hr
    have hb' : env'.boltWindow = true := by rw [← h2]; exact hb
    have hn' : needLogin env' = true := by
      unfold needLogin
      rw [← h3, ← h4]
      exact hn
    have hban' : bannerDetected env' = true := by
      unfold bannerDetected
      rw [← h9, ← h4]
      exact hban
    have hm' : mainRun cfg env' = (1, preBannerTrace cfg env') := by
      simp [mainRun, hr', hb', hn', hban']
    rw [hm, hm']
    have : preBannerTrace cfg env' = preBannerTrace cfg env := by
      unfold preBannerTrace
      rw [← h5, ← h6, ← h7, ← h8]
    rw [this]

/-- Witness for C6: the banner environment detects the disclaimer and then
the error banner; its password differs from its username. -/
theorem mainRun_banner_abort_witness :
    mainRun sampleConfig bannerEnv = (1, preBannerTrace sampleConfig bannerEnv) ∧
    Event.typeText sampleConfig.username ∈ (mainRun sampleConfig bannerEnv).2 ∧
    (∀ s, Event.totpGen s ∉ (mainRun sampleConfig bannerEnv).2) ∧
    (sampleConfig.password ≠ sampleConfig.username →
      Event.typeText sampleConfig.password ∉
        (mainRun sampleConfig bannerEnv).2) ∧
    (∀ env', Env.agreeToBanner bannerEnv env' →
      mainRun sampleConfig env' = mainRun sampleConfig bannerEnv) :=
  mainRun_banner_abort sampleConfig bannerEnv rfl rfl rfl rfl

/-- C9: a failed screen capture at the initial session-state probe commits
the flow to the persisted-session branch: `need_login` is false, and the run
is identical to a run whose step-1 capture succeeded on a frame in which the
disclaimer is not detected. There is no re-probe. -/
theorem mainRun_capture_failure_like_disclaimer_absent (cfg : Config)
    (env : Env) (f : ℕ) (hcap : env.step1Screen = none)
    (hf : env.detect f "i_understand_button.png" MATCH_THRESHOLD = none) :
    needLogin env = false ∧
    mainRun cfg env = mainRun cfg { env with step1Screen := some f } := by
  have h1 : needLogin env = false := by
    unfold needLogin
    rw [hcap]
  have h2 : needLogin { env with step1Screen := some f } = false := by
    unfold needLogin
    simp [hf]
  refine ⟨h1, ?_⟩
  simp only [mainRun, h1, h2]
  rfl

/-- Witness for C9: the quiet environment's step-1 capture fails and its
detection oracle never finds the disclaimer. -/
theorem mainRun_capture_failure_like_disclaimer_absent_witness :
    needLogin quietEnv = false ∧
    mainRun sampleConfig quietEnv =
      mainRun sampleConfig { quietEnv with step1Screen := some 0 } :=
  mainRun_capture_failure_like_disclaimer_absent sampleConfig quietEnv 0
    rfl rfl

/-- C10: `post_launch.main` returns 0 on every run that completes, no matter
which anchors were detected: every exit path of the post-launch flow falls
through to `return 0`. -/
theorem postLaunchMain_always_zero (character_name : String) (env : PLEnv) :
    (postLaunchMain character_name env).1 = 0 := rfl

lemma waitLoop_none_of (found : ℕ → Option (ℕ × ℕ)) :
    ∀ fuel start, (∀ j, start ≤ j → j < start + fuel → found j = none) →
      waitLoop found fuel start = none := by
  intro fuel
  induction fuel with
  | zero => intro start _; rfl
  | succ n ih =>
    intro start h
    have hs : found start = none := h start (le_refl start) (by omega)
    simp only [waitLoop, hs]
    exact ih (start + 1) (fun j hj1 hj2 => h j (by omega) (by omega))

lemma waitLoop_finds (found : ℕ → Option (ℕ × ℕ)) (k : ℕ) (c : ℕ × ℕ)
    (hk : found k = some c) (hbefore : ∀ j < k, found j = none) :
    ∀ fuel start, start ≤ k → k < start + fuel →
      waitLoop found fuel start = some (k, c) := by
  intro fuel
  induction fuel with
  | zero => intro start h1 h2; omega
  | succ n ih =>
    intro start h1 h2
    rcases h1.lt_or_eq with hlt | rfl
    · have hs : found start = none := hbefore start hlt
      simp only [waitLoop, hs]
      exact ih (start + 1) hlt (by omega)
    · simp [waitLoop, hk]

/-- C4: with a fixed poll interval, if the template first becomes detectable
at attempt `k` (all earlier attempts find nothing) and `k · interval <
timeout`, `wait_and_click` clicks the detected location and returns success
at that attempt; if the template is never detectable, it returns failure
after performing exactly `⌈timeout / interval⌉` attempts, whose accumulated
interval count reaches the timeout but exceeds it by less than one
interval. -/
theorem wait_and_click_poll_semantics (found : ℕ → Option (ℕ × ℕ))
    (timeout interval : ℚ) (hto : 0 < timeout) (hiv : 0 < interval) :
    (∀ k c, found k = some c → (∀ j < k, found j = none) →
      (k : ℚ) * interval < timeout →
      wait_and_click found timeout interval = some (k, c)) ∧
    ((∀ j : ℕ, (j : ℚ) * interval < timeout → found j = none) →
      wait_and_click found timeout interval = none) ∧
    timeout ≤ (pollAttempts timeout interval : ℚ) * interval ∧
    (pollAttempts timeout interval : ℚ) * interval < timeout + interval := by
  refine ⟨?_, ?_, ?_, ?_⟩
  · intro k c hk hbefore hwithin
    have hdiv : (k : ℚ) < timeout / interval := (lt_div_iff₀ hiv).mpr hwithin
    have hfuel : k < pollAttempts timeout interval := Nat.lt_ceil.mpr hdiv
    exact waitLoop_finds found k c hk hbefore _ 0 (Nat.zero_le k)
      (by omega)
  · intro h
    apply waitLoop_none_of
    intro j _ hj
    apply h
    have hj' : j < pollAttempts timeout interval := by omega
    have := Nat.lt_ceil.mp hj'
    exact (lt_div_iff₀ hiv).mp this
  · have hle : timeout / interval ≤ (pollAttempts timeout interval : ℚ) :=
      Nat.le_ceil _
    exact (div_le_iff₀ hiv).mp hle
  · have hx : (0 : ℚ) ≤ timeout / interval := le_of_lt (div_pos hto hiv)
    have h4 : ((pollAttempts timeout interval : ℚ)) < timeout / interval + 1 :=
      Nat.ceil_lt_add_one hx
    have h5 := mul_lt_mul_of_pos_right h4 hiv
    rwa [add_mul, one_mul, div_mul_cancel₀ _ (ne_of_gt hiv)] at h5

/-- Witness for C4: the template appears at attempt 2 with a 2-second timeout
and the 0.5-second poll interval. -/
theorem wait_and_click_poll_semantics_witness :
    (∀ (k : ℕ) (c : ℕ × ℕ),
      (fun j => if j = 2 then some ((7:ℕ), (8:ℕ)) else none) k = some c →
      (∀ j < k, (fun j => if j = 2 then some ((7:ℕ), (8:ℕ)) else none) j = none) →
      (k : ℚ) * (1/2) < 2 →
      wait_and_click (fun j => if j = 2 then some ((7:ℕ), (8:ℕ)) else none)
        2 (1/2) = some (k, c)) ∧
    ((∀ j : ℕ, (j : ℚ) * (1/2) < 2 →
      (fun j => if j = 2 then some ((7:ℕ), (8:ℕ)) else none) j = none) →
      wait_and_click (fun j => if j = 2 then some ((7:ℕ), (8:ℕ)) else none)
        2 (1/2) = none) ∧
    (2:ℚ) ≤ (pollAttempts 2 (1/2) : ℚ) * (1/2) ∧
    (pollAttempts 2 (1/2) : ℚ) * (1/2) < 2 + 1/2 :=
  wait_and_click_poll_semantics
    (fun j => if j = 2 then some ((7:ℕ), (8:ℕ)) else none)
    2 (1/2) (by norm_num) (by norm_num)

lemma pyInt_intCast (n : ℤ) : pyInt (n : ℚ) = n := by
  unfold pyInt
  split
  · rw [← Int.cast_neg, Int.floor_intCast, neg_neg]
  · exact Int.floor_intCast n

lemma human_move_mouse_path_length (sx sy tx ty r1 r2 r3 r4 : ℤ) :
    (human_move_mouse_path sx sy tx ty r1 r2 r3 r4).length =
      moveSteps sx sy tx ty + 1 := by
  simp only [human_move_mouse_path, List.length_map, List.length_range]

/-- C7: for every start point, target point and random draw, the motion
path's first emitted waypoint equals the start position exactly (the `t = 0`
Bézier point is the start, and `int()` of an integer is itself), the last
emitted position is exactly the requested target (the final corrective move),
and the waypoint count `max(10, ⌊distance / 15⌋) + 1` is monotonically
non-decreasing in the Euclidean distance between start and target (stated via
the squared distances, whose order is the order of the distances). -/
theorem human_move_mouse_path_spec (sx sy tx ty r1 r2 r3 r4 : ℤ) :
    (human_move_mouse_path sx sy tx ty r1 r2 r3 r4).head? = some (sx, sy) ∧
    (human_move_mouse sx sy tx ty r1 r2 r3 r4).getLast? = some (tx, ty) ∧
    (human_move_mouse_path sx sy tx ty r1 r2 r3 r4).length =
      moveSteps sx sy tx ty + 1 ∧
    (∀ sx' sy' tx' ty' r1' r2' r3' r4' : ℤ,
      distSq sx sy tx ty ≤ distSq sx' sy' tx' ty' →
      (human_move_mouse_path sx sy tx ty r1 r2 r3 r4).length ≤
        (human_move_mouse_path sx' sy' tx' ty' r1' r2' r3' r4').length) := by
  refine ⟨?_, ?_, human_move_mouse_path_length sx sy tx ty r1 r2 r3 r4, ?_⟩
  · simp only [human_move_mouse_path, List.range_succ_eq_map, List.map_cons,
      List.head?_cons]
    norm_num [bezier_curve, pyInt_intCast]
  · rw [human_move_mouse, List.getLast?_concat]
  · intro sx' sy' tx' ty' r1' r2' r3' r4' h
    rw [human_move_mouse_path_length, human_move_mouse_path_length]
    have hsteps : moveSteps sx sy tx ty ≤ moveSteps sx' sy' tx' ty' :=
      max_le_max (le_refl 10)
        (Nat.div_le_div_right (Nat.sqrt_le_sqrt h))
    omega

/-- Witness for C7: a short move (0,0)→(30,40) and a long move
(0,0)→(300,400); the short move's path is no longer than the long move's. -/
theorem human_move_mouse_path_spec_witness :
    (human_move_mouse_path 0 0 30 40 1 2 3 4).head? = some (0, 0) ∧
    (human_move_mouse 0 0 30 40 1 2 3 4).getLast? = some (30, 40) ∧
    (human_move_mouse_path 0 0 30 40 1 2 3 4).length ≤
      (human_move_mouse_path 0 0 300 400 5 6 7 8).length :=
  ⟨(human_move_mouse_path_spec 0 0 30 40 1 2 3 4).1,
   (human_move_mouse_path_spec 0 0 30 40 1 2 3 4).2.1,
   (human_move_mouse_path_spec 0 0 30 40 1 2 3 4).2.2.2 0 0 300 400 5 6 7 8
     (by decide)⟩

/-- C8: for every rectangle with width ≥ 11 and height ≥ 11 and every random
draw (`randint a b` always in `[a, b]`), the point clicked by
`click_random_within` lies within the rectangle shrunk by the 5-pixel
margin on every edge. -/
theorem click_random_within_bounds (randint : ℤ → ℤ → ℤ)
    (hrand : ∀ a b, a ≤ b → a ≤ randint a b ∧ randint a b ≤ b)
    (x y width height : ℤ) (hw : 11 ≤ width) (hh : 11 ≤ height) :
    x + 5 ≤ (click_random_within randint x y width height).1 ∧
    (click_random_within randint x y width height).1 ≤ x + width - 5 ∧
    y + 5 ≤ (click_random_within randint x y width height).2 ∧
    (click_random_within randint x y width height).2 ≤ y + height - 5 := by
  have hmw : max ((5:ℤ) + 1) (width - 5) = width - 5 := max_eq_right (by omega)
  have hmh : max ((5:ℤ) + 1) (height - 5) = height - 5 :=
    max_eq_right (by omega)
  obtain ⟨hx1, hx2⟩ := hrand 5 (width - 5) (by omega)
  obtain ⟨hy1, hy2⟩ := hrand 5 (height - 5) (by omega)
  refine ⟨?_, ?_, ?_, ?_⟩ <;>
    simp only [click_random_within, hmw, hmh] <;> omega

/-- Witness for C8: the lower-bound draw inside an 11×12 rectangle at the
origin. -/
theorem click_random_within_bounds_witness :
    (0:ℤ) + 5 ≤ (click_random_within (fun a _ => a) 0 0 11 12).1 ∧
    (click_random_within (fun a _ => a) 0 0 11 12).1 ≤ 0 + 11 - 5 ∧
    (0:ℤ) + 5 ≤ (click_random_within (fun a _ => a) 0 0 11 12).2 ∧
    (click_random_within (fun a _ => a) 0 0 11 12).2 ≤ 0 + 12 - 5 :=
  click_random_within_bounds (fun a _ => a)
    (fun a _ h => ⟨le_refl a, h⟩) 0 0 11 12 (by norm_num) (by norm_num)

end Rocinante
